import Mathlib

/-!
Verification of the ETL job in `etl.py` (data-lake-with-spark).

The development shallowly embeds the program:

* `get_date_part` — the date-part UDF, embedded over a model of Python's
  `datetime` (proleptic Gregorian calendar, local time modelled as a fixed
  UTC offset `tzOffset` in seconds).  Python's `part in ("weekday")` is a
  *substring* test on the string `"weekday"` (a parenthesised string is not
  a tuple), and the embedding reproduces that semantics exactly.
* the five relational queries of `process_song_data` / `process_log_data`
  as list transformations with SQL null semantics, and
* the write plan (`overwrite` parquet writes with their `partitionBy`
  columns) as a fold of overwrites over an abstract object store.
-/

/-- Python's `in` on a tuple of values: membership by equality. -/
def pyInTuple (part : String) (t : List String) : Bool :=
  t.contains part

/-- Contiguous-sublist (substring) test on lists. -/
def listInfixOf {α : Type} [BEq α] : List α → List α → Bool
  | needle, [] => needle.isEmpty
  | needle, a :: as => needle.isPrefixOf (a :: as) || listInfixOf needle as

/-- Python's `in` on a string: `part in s` is a substring test
(the empty string is a substring of everything). -/
def pyInStr (part s : String) : Bool :=
  listInfixOf part.data s.data

/-- Days since 1970-01-01 of a proleptic-Gregorian civil date
(Hinnant's `days_from_civil`). -/
def daysFromCivil (y m d : Int) : Int :=
  let y2 := y - (if m ≤ 2 then 1 else 0)
  let era := Int.fdiv y2 400
  let yoe := y2 - era * 400
  let doy := Int.fdiv (153 * (m + (if 2 < m then -3 else 9)) + 2) 5 + d - 1
  let doe := yoe * 365 + Int.fdiv yoe 4 - Int.fdiv yoe 100 + doy
  era * 146097 + doe - 719468

/-- Civil date (year, month, day) of a count of days since 1970-01-01
(Hinnant's `civil_from_days`). -/
def civilFromDays (z0 : Int) : Int × Int × Int :=
  let z := z0 + 719468
  let era := Int.fdiv z 146097
  let doe := z - era * 146097
  let yoe := Int.fdiv (doe - Int.fdiv doe 1460 + Int.fdiv doe 36524 - Int.fdiv doe 146096) 365
  let y := yoe + era * 400
  let doy := doe - (365 * yoe + Int.fdiv yoe 4 - Int.fdiv yoe 100)
  let mp := Int.fdiv (5 * doy + 2) 153
  let d := doy - Int.fdiv (153 * mp + 2) 5 + 1
  let m := mp + (if mp < 10 then 3 else -9)
  (y + (if m ≤ 2 then 1 else 0), m, d)

/-- Model of a Python `datetime` value (microseconds are irrelevant to
every field the program reads and are omitted). -/
structure PyDateTime where
  year : Int
  month : Int
  day : Int
  hour : Int
  minute : Int
  second : Int
deriving DecidableEq

/-- `datetime.toordinal`, rebased to days since 1970-01-01. -/
def PyDateTime.toOrdinal (dt : PyDateTime) : Int :=
  daysFromCivil dt.year dt.month dt.day

/-- `datetime.weekday()`: Monday = 0 … Sunday = 6
(1970-01-01, day 0, was a Thursday, index 3). -/
def PyDateTime.weekday (dt : PyDateTime) : Int :=
  Int.emod (dt.toOrdinal + 3) 7

/-- CPython's `_isoweek1monday`: the day number of the Monday starting
ISO week 1 of year `y` (rebased to days since 1970-01-01). -/
def isoweek1monday (y : Int) : Int :=
  let firstday := daysFromCivil y 1 1
  let firstweekday := Int.emod (firstday + 3) 7
  let week1monday := firstday - firstweekday
  if 3 < firstweekday then week1monday + 7 else week1monday

/-- `datetime.isocalendar()[1]`: the ISO-8601 week-of-year number,
following CPython's implementation. -/
def PyDateTime.isocalendar_week (dt : PyDateTime) : Int :=
  let today := dt.toOrdinal
  let week := Int.fdiv (today - isoweek1monday dt.year) 7
  if week < 0 then
    Int.fdiv (today - isoweek1monday (dt.year - 1)) 7 + 1
  else if 52 ≤ week ∧ isoweek1monday (dt.year + 1) ≤ today then
    1
  else
    week + 1

/-- `datetime.fromtimestamp(ts / 1000.0)` on a millisecond epoch
timestamp, in a local timezone at fixed offset `tzOffset` seconds from
UTC.  All fields the program reads depend only on the floor of the
second count, so the float division is modelled by floor division. -/
def fromtimestamp_ms (tzOffset : Int) (ts : Int) : PyDateTime :=
  let s := Int.fdiv ts 1000 + tzOffset
  let days := Int.fdiv s 86400
  let sod := Int.emod s 86400
  let c := civilFromDays days
  { year := c.1, month := c.2.1, day := c.2.2,
    hour := Int.fdiv sod 3600,
    minute := Int.fdiv (Int.emod sod 3600) 60,
    second := Int.emod sod 60 }

/-- Python's `getattr(dt, part)` for the calendar-field names the first
branch of `get_date_part` can reach. -/
def getattr_dt (dt : PyDateTime) (attr : String) : Option Int :=
  if attr = "hour" then some dt.hour
  else if attr = "day" then some dt.day
  else if attr = "month" then some dt.month
  else if attr = "year" then some dt.year
  else none

/-- `get_date_part(ts, part)` from `etl.py`.  The first test is genuine
tuple membership; the second and third are Python substring tests on
`"weekday"` and `"week"` (the parentheses build no tuple); a fall-through
returns Python's implicit `None`, modelled as `none`. -/
def get_date_part (tzOffset : Int) (ts : Int) (part : String) : Option Int :=
  let dt := fromtimestamp_ms tzOffset ts
  if pyInTuple part ["hour", "day", "month", "year"] then
    getattr_dt dt part
  else if pyInStr part "weekday" then
    some dt.weekday
  else if pyInStr part "week" then
    some dt.isocalendar_week
  else
    none

/-- One record of the song-metadata JSON input (`song_data`).  Doubles
(`duration`, latitude, longitude) are modelled as integers: no claim
depends on float arithmetic, only on equality of values. -/
structure SongRecord where
  song_id : Option String
  title : Option String
  artist_id : Option String
  year : Option Int
  duration : Option Int
  artist_name : Option String
  artist_location : Option String
  artist_latitude : Option Int
  artist_longitude : Option Int
deriving DecidableEq

/-- One record of the user-activity-log JSON input (`user_log_table`). -/
structure LogEvent where
  ts : Int
  page : Option String
  userId : Option String
  firstName : Option String
  lastName : Option String
  gender : Option String
  level : Option String
  song : Option String
  artist : Option String
  length : Option Int
  sessionId : Option Int
  location : Option String
  userAgent : Option String
deriving DecidableEq

/-- Row of the `songs` output table. -/
structure SongsRow where
  song_id : Option String
  title : Option String
  artist_id : Option String
  year : Option Int
  duration : Option Int
deriving DecidableEq

/-- Row of the `artists` output table. -/
structure ArtistsRow where
  artist_id : Option String
  artist_name : Option String
  artist_location : Option String
  artist_latitude : Option Int
  artist_longitude : Option Int
deriving DecidableEq

/-- Row of the `users` output table. -/
structure UsersRow where
  userId : Option String
  firstName : Option String
  lastName : Option String
  gender : Option String
  level : Option String
deriving DecidableEq

/-- Row of the `time` output table; the six derived columns carry
whatever the UDF returns, so they are nullable. -/
structure TimeRow where
  ts : Int
  hour : Option Int
  day : Option Int
  month : Option Int
  year : Option Int
  week : Option Int
  weekday : Option Int
deriving DecidableEq

/-- Row of the `songplays` output table. -/
structure SongplaysRow where
  ts : Int
  year : Option Int
  month : Option Int
  userId : Option String
  level : Option String
  song_id : Option String
  artist_id : Option String
  sessionId : Option Int
  location : Option String
  userAgent : Option String
deriving DecidableEq

/-- SQL `a = b` between two nullable values: true only when both are
non-null and equal (a null comparison is UNKNOWN, which filters out). -/
def sqlEq {α : Type} [DecidableEq α] (a b : Option α) : Bool :=
  match a, b with
  | some x, some y => decide (x = y)
  | _, _ => false

/-- SQL `a = 'lit'` against a string literal. -/
def sqlEqLit (a : Option String) (b : String) : Bool :=
  sqlEq a (some b)

/-- `SELECT song_id, title, artist_id, year, duration FROM song_data`. -/
def songs_table (song_data : List SongRecord) : List SongsRow :=
  song_data.map fun r =>
    ⟨r.song_id, r.title, r.artist_id, r.year, r.duration⟩

/-- `SELECT artist_id, artist_name, artist_location, artist_latitude,
artist_longitude FROM song_data`. -/
def artists_table (song_data : List SongRecord) : List ArtistsRow :=
  song_data.map fun r =>
    ⟨r.artist_id, r.artist_name, r.artist_location, r.artist_latitude, r.artist_longitude⟩

/-- `SELECT * FROM user_log_table WHERE page = "NextSong"`. -/
def filtered_user_log (user_log : List LogEvent) : List LogEvent :=
  user_log.filter fun e => sqlEqLit e.page "NextSong"

/-- `SELECT userId, firstName, lastName, gender, level FROM
filtered_user_log`. -/
def user_table (user_log : List LogEvent) : List UsersRow :=
  (filtered_user_log user_log).map fun e =>
    ⟨e.userId, e.firstName, e.lastName, e.gender, e.level⟩

/-- The `time` table: the six `get_date_part` columns over each
filtered event's `ts`. -/
def time_table (tzOffset : Int) (user_log : List LogEvent) : List TimeRow :=
  (filtered_user_log user_log).map fun e =>
    ⟨e.ts,
     get_date_part tzOffset e.ts "hour",
     get_date_part tzOffset e.ts "day",
     get_date_part tzOffset e.ts "month",
     get_date_part tzOffset e.ts "year",
     get_date_part tzOffset e.ts "week",
     get_date_part tzOffset e.ts "weekday"⟩

/-- The join predicate of the `songplays` query:
`filtered_user_log.song = songs.title AND filtered_user_log.length =
songs.duration` (SQL null semantics). -/
def songplayMatch (e : LogEvent) (s : SongsRow) : Bool :=
  sqlEq e.song s.title && sqlEq e.length s.duration

/-- `LEFT JOIN songs ON …`: every left row is kept; a row with no match
is padded with nulls, a row with k matches appears k times. -/
def leftJoinSongs (events : List LogEvent) (songs : List SongsRow) :
    List (LogEvent × Option String × Option String) :=
  events.flatMap fun e =>
    let hits := songs.filter (songplayMatch e)
    if hits.isEmpty then [(e, none, none)]
    else hits.map fun s => (e, s.song_id, s.artist_id)

/-- The `songplays` query: left join of the filtered log onto `songs`,
then the `WHERE userId IS NOT NULL AND artist IS NOT NULL AND song IS
NOT NULL` post-filter, then the projection. -/
def songplays_table (tzOffset : Int) (user_log : List LogEvent)
    (songs : List SongsRow) : List SongplaysRow :=
  let joined := leftJoinSongs (filtered_user_log user_log) songs
  (joined.filter fun p =>
      p.1.userId.isSome && p.1.artist.isSome && p.1.song.isSome).map
    fun p =>
      ⟨p.1.ts,
       get_date_part tzOffset p.1.ts "year",
       get_date_part tzOffset p.1.ts "month",
       p.1.userId, p.1.level, p.2.1, p.2.2,
       p.1.sessionId, p.1.location, p.1.userAgent⟩

/-- The payload of one parquet write. -/
inductive TableData where
  | songs : List SongsRow → TableData
  | artists : List ArtistsRow → TableData
  | users : List UsersRow → TableData
  | time : List TimeRow → TableData
  | songplays : List SongplaysRow → TableData
deriving DecidableEq

/-- One `write.mode('overwrite')[.partitionBy(cols)].parquet(path)`
call. -/
structure Write where
  path : String
  partitionBy : List String
  data : TableData
deriving DecidableEq

/-- The two writes issued by `process_song_data`, in program order. -/
def process_song_data (dest : String) (song_data : List SongRecord) :
    List Write :=
  [⟨dest ++ "artists_table.data", [], .artists (artists_table song_data)⟩,
   ⟨dest ++ "songs_table.data", ["year", "artist_id"],
      .songs (songs_table song_data)⟩]

/-- The three writes issued by `process_log_data`, in program order;
`songs` is the temp view registered by `process_song_data`. -/
def process_log_data (tzOffset : Int) (dest : String)
    (songs : List SongsRow) (user_log : List LogEvent) : List Write :=
  [⟨dest ++ "user_table.data", [], .users (user_table user_log)⟩,
   ⟨dest ++ "time_table.data", ["year", "month"],
      .time (time_table tzOffset user_log)⟩,
   ⟨dest ++ "songplays_table.data", ["year", "month"],
      .songplays (songplays_table tzOffset user_log songs)⟩]

/-- All writes of one run of `main`: song transform, then log
transform joining against the songs view of the first step. -/
def main_writes (tzOffset : Int) (dest : String)
    (song_data : List SongRecord) (user_log : List LogEvent) : List Write :=
  process_song_data dest song_data ++
    process_log_data tzOffset dest (songs_table song_data) user_log

/-- The object store: a partitioned dataset (or nothing) at each path. -/
def Store : Type :=
  String → Option (List String × TableData)

/-- `mode('overwrite')`: the write wholly replaces whatever was at its
path; every other path is untouched. -/
def applyWrite (st : Store) (w : Write) : Store :=
  fun p => if p = w.path then some (w.partitionBy, w.data) else st p

/-- One run of the pipeline against a store. -/
def run_etl (tzOffset : Int) (dest : String) (song_data : List SongRecord)
    (user_log : List LogEvent) (st : Store) : Store :=
  (main_writes tzOffset dest song_data user_log).foldl applyWrite st

/-- The distinct partition-key tuples a partitioned write produces: one
sub-path per distinct key present in the data. -/
def partitionGroups {α κ : Type} [DecidableEq κ] (key : α → κ)
    (t : List α) : List κ :=
  (t.map key).dedup

/-- The store holding nothing. -/
def emptyStore : Store := fun _ => none

/-- A concrete non-playback event (`page = "Home"`). -/
def eHome : LogEvent :=
  ⟨0, some "Home", some "u", none, none, none, some "free",
   some "t", some "a", some 1, some 1, none, none⟩

/-- A concrete qualifying event whose song/length match nothing. -/
def eUnmatched : LogEvent :=
  ⟨0, some "NextSong", some "u1", none, none, none, some "paid",
   some "Song T", some "Artist A", some 200, some 5, none, none⟩

/-- A concrete song-metadata record. -/
def rExample : SongRecord :=
  ⟨some "s1", some "t1", some "a1", some 1999, some 200,
   some "n", none, none, none⟩

/-- `listInfixOf` agrees with contiguous-sublist containment. -/
theorem listInfixOf_iff {α : Type} [DecidableEq α] {l₁ l₂ : List α} :
    listInfixOf l₁ l₂ = true ↔ l₁ <:+: l₂ := by
  induction l₂ with
  | nil =>
      simp [listInfixOf, List.isEmpty_iff]
  | cons a as ih =>
      simp [listInfixOf, List.infix_cons_iff, ih, List.isPrefixOf_iff_prefix,
        Bool.or_eq_true]

/-- Every substring of `"week"` is a substring of `"weekday"`, so the
third branch of `get_date_part` is unreachable. -/
theorem pyInStr_week_imp_weekday {part : String}
    (h : pyInStr part "week" = true) : pyInStr part "weekday" = true := by
  have h1 : part.data <:+: "week".data := listInfixOf_iff.mp h
  have h2 : "week".data <:+: "weekday".data := by decide
  exact listInfixOf_iff.mpr (h1.trans h2)

/-- `datetime.weekday()` always lands in `[0, 6]`. -/
theorem weekday_range (dt : PyDateTime) :
    0 ≤ dt.weekday ∧ dt.weekday < 7 :=
  ⟨Int.emod_nonneg _ (by norm_num), Int.emod_lt_of_pos _ (by norm_num)⟩

/-- C6: for part strings "hour", "day", "month" and "year",
`get_date_part` returns the corresponding calendar field of the
local-time conversion of `ts / 1000` seconds. -/
theorem get_date_part_hdmy (tzOffset ts : Int) :
    get_date_part tzOffset ts "hour" = some (fromtimestamp_ms tzOffset ts).hour ∧
    get_date_part tzOffset ts "day" = some (fromtimestamp_ms tzOffset ts).day ∧
    get_date_part tzOffset ts "month" = some (fromtimestamp_ms tzOffset ts).month ∧
    get_date_part tzOffset ts "year" = some (fromtimestamp_ms tzOffset ts).year :=
  ⟨rfl, rfl, rfl, rfl⟩

/-- C7: `get_date_part(ts, "weekday")` is the weekday index
(Monday = 0 … Sunday = 6, the `datetime.weekday()` convention) of the
local-time conversion of `ts`, an integer in `[0, 6]`. -/
theorem get_date_part_weekday (tzOffset ts : Int) :
    get_date_part tzOffset ts "weekday" =
      some (fromtimestamp_ms tzOffset ts).weekday ∧
    0 ≤ (fromtimestamp_ms tzOffset ts).weekday ∧
    (fromtimestamp_ms tzOffset ts).weekday < 7 :=
  ⟨rfl, weekday_range _⟩

/-- C2: any part string that is a substring of `"weekday"` but not one
of the four tuple members — in particular `"week"`, `"weekday"`, `"e"`
and `""` — takes the second branch and yields the weekday index in
`[0, 6]`: the substring test `part in ("weekday")` shadows the
`part in ("week")` branch. -/
theorem get_date_part_weekday_shadows (tzOffset ts : Int) (part : String)
    (h1 : pyInTuple part ["hour", "day", "month", "year"] = false)
    (h2 : pyInStr part "weekday" = true) :
    get_date_part tzOffset ts part =
      some (fromtimestamp_ms tzOffset ts).weekday ∧
    0 ≤ (fromtimestamp_ms tzOffset ts).weekday ∧
    (fromtimestamp_ms tzOffset ts).weekday < 7 := by
  refine ⟨?_, weekday_range _⟩
  simp [get_date_part, h1, h2]

/-- C2 witness: at `ts = 0`, `tzOffset = 0`, `part = "week"` the
hypotheses hold and the function returns the weekday index. -/
theorem get_date_part_weekday_shadows_witness :
    (pyInTuple "week" ["hour", "day", "month", "year"] = false ∧
      pyInStr "week" "weekday" = true) ∧
    (get_date_part 0 0 "week" = some (fromtimestamp_ms 0 0).weekday ∧
      0 ≤ (fromtimestamp_ms 0 0).weekday ∧
      (fromtimestamp_ms 0 0).weekday < 7) :=
  ⟨⟨by decide, by decide⟩,
    get_date_part_weekday_shadows 0 0 "week" (by decide) (by decide)⟩

/-- C1 (code bug): at the failing input `ts = 345600000` ms
(1970-01-05, a Monday, in a zero-offset locale) the code returns
`some 0` — the weekday index — while the ISO-8601 week number of that
date is `2`; `0` is neither the ISO week nor in the range `[1, 53]`. -/
theorem get_date_part_week_bug :
    get_date_part 0 345600000 "week" = some 0 ∧
    (fromtimestamp_ms 0 345600000).isocalendar_week = 2 ∧
    (0 : Int) ≠ 2 ∧ ¬ (1 ≤ (0 : Int)) := by
  refine ⟨by decide, by decide, by decide, by decide⟩

/-- C3 counterexample: `"e"` is outside the six recognized part names,
yet `get_date_part` does not fall through: it returns the weekday
(`some 3` at the epoch), not an undefined/null result. -/
theorem get_date_part_e_not_none :
    pyInTuple "e" ["hour", "day", "month", "year", "weekday", "week"] = false ∧
    get_date_part 0 0 "e" = some 3 ∧ get_date_part 0 0 "e" ≠ none := by
  refine ⟨by decide, by decide, by decide⟩

/-- C3 amended: for part strings outside the four tuple members that
are also not substrings of `"weekday"`, `get_date_part` falls through
and returns Python's implicit `None` (no exception is raised: the
embedding is a total function). -/
theorem get_date_part_fallthrough (tzOffset ts : Int) (part : String)
    (h1 : pyInTuple part ["hour", "day", "month", "year"] = false)
    (h2 : pyInStr part "weekday" = false) :
    get_date_part tzOffset ts part = none := by
  have h3 : pyInStr part "week" = false := by
    cases hw : pyInStr part "week" with
    | false => rfl
    | true => rw [pyInStr_week_imp_weekday hw] at h2; exact absurd h2 (by simp)
  simp [get_date_part, h1, h2, h3]

/-- C3 witness: `part = "z"` satisfies the amended hypotheses and the
function returns `none`. -/
theorem get_date_part_fallthrough_witness :
    (pyInTuple "z" ["hour", "day", "month", "year"] = false ∧
      pyInStr "z" "weekday" = false) ∧
    get_date_part 0 0 "z" = none :=
  ⟨⟨by decide, by decide⟩, get_date_part_fallthrough 0 0 "z" (by decide) (by decide)⟩

/-- C5: an event whose `page` is not the literal `"NextSong"`
contributes no row to the users, time or songplays outputs: deleting it
from the input leaves all three tables unchanged. -/
theorem non_nextsong_event_excluded (tzOffset : Int) (songs : List SongsRow)
    (l1 l2 : List LogEvent) (e : LogEvent) (hp : e.page ≠ some "NextSong") :
    user_table (l1 ++ e :: l2) = user_table (l1 ++ l2) ∧
    time_table tzOffset (l1 ++ e :: l2) = time_table tzOffset (l1 ++ l2) ∧
    songplays_table tzOffset (l1 ++ e :: l2) songs =
      songplays_table tzOffset (l1 ++ l2) songs := by
  have hc : sqlEqLit e.page "NextSong" = false := by
    cases hpg : e.page with
    | none => rfl
    | some s =>
        have hs : s ≠ "NextSong" := fun h => hp (by rw [hpg, h])
        simp [sqlEqLit, sqlEq, hs]
  have hf : filtered_user_log (l1 ++ e :: l2) = filtered_user_log (l1 ++ l2) := by
    simp [filtered_user_log, List.filter_append, List.filter_cons, hc]
  exact ⟨by simp [user_table, hf], by simp [time_table, hf],
    by simp [songplays_table, hf]⟩

/-- C5 witness: the `eHome` event is dropped from all three tables. -/
theorem non_nextsong_event_excluded_witness :
    (eHome.page ≠ some "NextSong") ∧
    (user_table ([] ++ eHome :: []) = user_table ([] ++ []) ∧
     time_table 0 ([] ++ eHome :: []) = time_table 0 ([] ++ []) ∧
     songplays_table 0 ([] ++ eHome :: []) [] =
       songplays_table 0 ([] ++ []) []) :=
  ⟨by decide, non_nextsong_event_excluded 0 [] [] [] eHome (by decide)⟩

/-- C4: a filtered event with non-null `userId`, `artist` and `song`
whose `(song, length)` matches no songs row on `(title, duration)` still
yields a songplays row, with null `song_id` and `artist_id`. -/
theorem songplays_left_join_keeps_unmatched (tzOffset : Int)
    (user_log : List LogEvent) (songs : List SongsRow) (e : LogEvent)
    (hin : e ∈ user_log) (hp : e.page = some "NextSong")
    (hu : e.userId.isSome = true) (ha : e.artist.isSome = true)
    (hs : e.song.isSome = true)
    (hnm : ∀ s ∈ songs, songplayMatch e s = false) :
    (⟨e.ts, get_date_part tzOffset e.ts "year",
       get_date_part tzOffset e.ts "month", e.userId, e.level,
       none, none, e.sessionId, e.location, e.userAgent⟩ : SongplaysRow) ∈
      songplays_table tzOffset user_log songs := by
  have hef : e ∈ filtered_user_log user_log := by
    simp [filtered_user_log, List.mem_filter, hin, sqlEqLit, sqlEq, hp]
  have hhits : songs.filter (songplayMatch e) = [] :=
    List.filter_eq_nil_iff.mpr (fun s hs2 => by simp [hnm s hs2])
  have hj : (e, (none : Option String), (none : Option String)) ∈
      leftJoinSongs (filtered_user_log user_log) songs :=
    List.mem_flatMap.mpr ⟨e, hef, by simp [hhits]⟩
  simp only [songplays_table]
  exact List.mem_map.mpr
    ⟨(e, none, none), List.mem_filter.mpr ⟨hj, by simp [hu, ha, hs]⟩, rfl⟩

/-- C4 witness: against an empty songs table, `eUnmatched` is retained
with null `song_id` and `artist_id`. -/
theorem songplays_left_join_keeps_unmatched_witness :
    (eUnmatched ∈ [eUnmatched] ∧ eUnmatched.page = some "NextSong" ∧
      eUnmatched.userId.isSome = true ∧ eUnmatched.artist.isSome = true ∧
      eUnmatched.song.isSome = true ∧
      (∀ s ∈ ([] : List SongsRow), songplayMatch eUnmatched s = false)) ∧
    (⟨eUnmatched.ts, get_date_part 0 eUnmatched.ts "year",
       get_date_part 0 eUnmatched.ts "month", eUnmatched.userId,
       eUnmatched.level, none, none, eUnmatched.sessionId,
       eUnmatched.location, eUnmatched.userAgent⟩ : SongplaysRow) ∈
      songplays_table 0 [eUnmatched] [] :=
  ⟨⟨by decide, by decide, by decide, by decide, by decide, by simp⟩,
    songplays_left_join_keeps_unmatched 0 [eUnmatched] [] eUnmatched
      (by decide) (by decide) (by decide) (by decide) (by decide) (by simp)⟩

/-- C8: both song-side projections keep one row per input record —
artists is never deduplicated, and the songs row count equals the
distinct `song_id` count whenever the input has no duplicate ids. -/
theorem projection_no_dedup (song_data : List SongRecord) :
    (artists_table song_data).length = song_data.length ∧
    (songs_table song_data).length = song_data.length ∧
    ((song_data.map SongRecord.song_id).Nodup →
      (songs_table song_data).length =
        ((song_data.map SongRecord.song_id).dedup).length) := by
  refine ⟨by simp [artists_table], by simp [songs_table], fun h => ?_⟩
  rw [List.dedup_eq_self.mpr h]
  simp [songs_table]

/-- C8 witness: a one-record input with a distinct `song_id`. -/
theorem projection_no_dedup_witness :
    ([rExample].map SongRecord.song_id).Nodup ∧
    (songs_table [rExample]).length =
      (([rExample].map SongRecord.song_id).dedup).length :=
  ⟨by decide, (projection_no_dedup [rExample]).2.2 (by decide)⟩

/-- Folding writes over a store leaves untouched every path none of
them writes. -/
theorem foldl_applyWrite_of_not_mem {p : String} :
    ∀ (ws : List Write) (st : Store), p ∉ ws.map Write.path →
      ws.foldl applyWrite st p = st p := by
  intro ws
  induction ws with
  | nil => intro st _; rfl
  | cons w rest ih =>
      intro st h
      simp only [List.map_cons, List.mem_cons, not_or] at h
      rw [List.foldl_cons, ih _ h.2]
      simp [applyWrite, h.1]

/-- At every path some write targets, the final store content does not
depend on the store the fold started from (overwrite semantics). -/
theorem foldl_applyWrite_indep {p : String} :
    ∀ (ws : List Write) (st st' : Store), p ∈ ws.map Write.path →
      ws.foldl applyWrite st p = ws.foldl applyWrite st' p := by
  intro ws
  induction ws with
  | nil => intro st st' h; simp at h
  | cons w rest ih =>
      intro st st' h
      by_cases hm : p ∈ rest.map Write.path
      · rw [List.foldl_cons, List.foldl_cons]
        exact ih _ _ hm
      · have hp : p = w.path := by
          simp only [List.map_cons, List.mem_cons] at h
          tauto
        rw [List.foldl_cons, List.foldl_cons,
          foldl_applyWrite_of_not_mem rest _ hm,
          foldl_applyWrite_of_not_mem rest _ hm]
        simp [applyWrite, hp]

/-- C9: running the pipeline a second time on identical inputs leaves
every output path exactly as the first run wrote it — the run is
deterministic and every write wholly overwrites its path. -/
theorem run_etl_idempotent (tzOffset : Int) (dest : String)
    (song_data : List SongRecord) (user_log : List LogEvent) (st : Store)
    (p : String)
    (h : p ∈ (main_writes tzOffset dest song_data user_log).map Write.path) :
    run_etl tzOffset dest song_data user_log
        (run_etl tzOffset dest song_data user_log st) p =
      run_etl tzOffset dest song_data user_log st p :=
  foldl_applyWrite_indep _ _ _ h

/-- C9 witness: the artists output path of a run on empty inputs. -/
theorem run_etl_idempotent_witness :
    ("artists_table.data" ∈ (main_writes 0 "" [] []).map Write.path) ∧
    run_etl 0 "" [] [] (run_etl 0 "" [] [] emptyStore) "artists_table.data" =
      run_etl 0 "" [] [] emptyStore "artists_table.data" :=
  ⟨by decide, run_etl_idempotent 0 "" [] [] emptyStore _ (by decide)⟩

/-- C10: the run writes exactly five datasets — artists and users
unpartitioned, songs partitioned by `(year, artist_id)`, time and
songplays partitioned by `(year, month)` — and the songs partition
yields one group per distinct `(year, artist_id)` pair of the data. -/
theorem write_partition_layout (tzOffset : Int) (dest : String)
    (song_data : List SongRecord) (user_log : List LogEvent) :
    (main_writes tzOffset dest song_data user_log).map
        (fun w => (w.path, w.partitionBy)) =
      [(dest ++ "artists_table.data", []),
       (dest ++ "songs_table.data", ["year", "artist_id"]),
       (dest ++ "user_table.data", []),
       (dest ++ "time_table.data", ["year", "month"]),
       (dest ++ "songplays_table.data", ["year", "month"])] ∧
    partitionGroups (fun r => (r.year, r.artist_id)) (songs_table song_data) =
      (song_data.map (fun r => (r.year, r.artist_id))).dedup ∧
    (partitionGroups (fun r => (r.year, r.artist_id))
      (songs_table song_data)).Nodup := by
  refine ⟨rfl, ?_, List.nodup_dedup _⟩
  simp only [partitionGroups, songs_table, List.map_map]
  rfl
